import Mathlib

/-!
Verification of the plugin task runner repository (src/task_runner.py and
src/import_hook_demo.py) against its natural-language specification.

The Python code is shallowly embedded: modules are records of attributes,
the process-wide module cache (sys.modules), the finder chain (sys.meta_path)
and the filesystem are threaded through an explicit `World` state, and Python
exceptions are an explicit error type returned through `Except`.

Object identity of module objects (needed to talk about "the identical cached
Unit instance") is modelled by tagging every freshly created module with a
fresh numeric id drawn from an allocator in the state.  Re-execution of module
code is observable through an execution log in the state; the behaviour of a
piece of module-level code may depend on how many executions happened before
(module-level Python code is arbitrary and need not be deterministic across
executions), which is what the `Nat` argument of `ModContent.exec` models.
-/

namespace TaskRunner

/-! ## Character-level string primitives

Lean string library functions such as `String.startsWith` and `String.splitOn`
do not reduce well in the kernel, so the Python `str` operations used by the
code are modelled directly on the underlying character lists. -/

/-- Lexicographic comparison of character lists by Unicode code point; this is
exactly how Python compares the strings that make up file names. -/
def charsLe : List Char → List Char → Bool
  | [], _ => true
  | _ :: _, [] => false
  | a :: as, b :: bs =>
      if a.toNat < b.toNat then true
      else if b.toNat < a.toNat then false
      else charsLe as bs

/-- Python string comparison `a <= b` (used by `sorted`). -/
def strLe (a b : String) : Bool := charsLe a.data b.data

/-- Propositional form of `strLe`, used as the sorting relation. -/
def strLeP (a b : String) : Prop := strLe a b = true

instance : DecidableRel strLeP :=
  fun a b => inferInstanceAs (Decidable (strLe a b = true))

/-- Python `s.startswith(p)`. -/
def strStartsWith (s p : String) : Bool := p.data.isPrefixOf s.data

/-- Python `s.endswith(p)`. -/
def strEndsWith (s p : String) : Bool := p.data.isSuffixOf s.data

/-- Python `s[n:]` (drop the first `n` characters). -/
def strDrop (s : String) (n : Nat) : String := ⟨s.data.drop n⟩

/-- Characters after the last slash of a path: `PurePath(p).name`. -/
def afterLastSlash (l : List Char) : List Char :=
  l.foldl (fun acc c => if c = '/' then [] else acc ++ [c]) []

/-- Characters strictly before the last dot of a list, if the list contains a
dot; used to strip the final extension the way `PurePath.stem` does. -/
def beforeLastDot : List Char → Option (List Char)
  | [] => none
  | c :: cs =>
      match beforeLastDot cs with
      | some rest => some (c :: rest)
      | none => if c = '.' then some [] else none

/-- The stem of a file name: the name with its last extension removed, except
that a lone leading dot is not an extension (Python `PurePath.stem`). -/
def stemChars (b : List Char) : List Char :=
  match beforeLastDot b with
  | none => b
  | some [] => b
  | some (c :: cs) => c :: cs

/-- Python `Path(p).stem`: base name of the path with the last extension
stripped. -/
def path_stem (p : String) : String := ⟨stemChars (afterLastSlash p.data)⟩

/-! ## Values, errors and modules -/

/-- Python exceptions raised by the embedded code.  `typeError` and
`valueError` are raised by the runtime (wrong calling convention, failed
`int()` coercion); the remaining constructors carry the message built at the
raise site; `exc` stands for an arbitrary exception raised by plugin code. -/
inductive PyErr where
  | typeError
  | valueError
  | attributeError (msg : String)
  | fileNotFoundError (msg : String)
  | importError (msg : String)
  | exc (msg : String)
deriving DecidableEq, Repr

/-- First-order Python values that module attributes or call results can
take in this embedding. -/
inductive PyPrim where
  | pint (n : Int)
  | pstr (s : String)
  | pnone
deriving DecidableEq, Repr

/-- A Python callable as far as `call_plugin` can observe it: its body when
invoked with the single `argv` argument, or with no arguments.  Calling a
function with an argument count it does not accept raises `TypeError` before
the body runs; `variadic` models star-args style functions, whose body
receives the argument tuple and therefore runs under both conventions. -/
inductive PyFunc where
  | arity0 (body : Except PyErr PyPrim)
  | arity1 (body : List String → Except PyErr PyPrim)
  | variadic (body : Option (List String) → Except PyErr PyPrim)

/-- A Python attribute value: a first-order value or a callable. -/
inductive PyValue where
  | prim (p : PyPrim)
  | func (f : PyFunc)

/-- A loaded module object (`types.ModuleType`).  `id` models CPython object
identity: two modules are the same object exactly when their ids agree. -/
structure PyModule where
  id : Nat
  name : String
  origin : Option String
  attrs : List (String × PyValue)

/-- Association-list lookup, first match wins (attribute and cache maps are
kept with unique keys). -/
def alookup {α : Type} : List (String × α) → String → Option α
  | [], _ => none
  | (k, v) :: rest, n => if k = n then some v else alookup rest n

/-- Overwrite-or-insert for association lists; replacement is in place so a
cache entry is never duplicated. -/
def setEntry {α : Type} : List (String × α) → String → α → List (String × α)
  | [], n, v => [(n, v)]
  | (k, w) :: rest, n, v =>
      if k = n then (n, v) :: rest else (k, w) :: setEntry rest n v

/-- Remove a key from an association list. -/
def removeEntry {α : Type} : List (String × α) → String → List (String × α)
  | [], _ => []
  | (k, w) :: rest, n => if k = n then removeEntry rest n else (k, w) :: removeEntry rest n

/-- Python `getattr(module, name)` as an `Option` (with `hasattr` being
`isSome`). -/
def getattr (m : PyModule) (k : String) : Option PyValue := alookup m.attrs k

/-- Parse an optionally signed decimal numeral, the core of what the Python
builtin `int` accepts on strings. -/
def decDigitsAux : List Char → Nat → Option Nat
  | [], acc => some acc
  | c :: cs, acc =>
      if 48 ≤ c.toNat ∧ c.toNat ≤ 57 then decDigitsAux cs (acc * 10 + (c.toNat - 48))
      else none

/-- Python `int(s)` on a string: optional sign followed by decimal digits;
anything else raises `ValueError` (modelled as `none` here). -/
def str_to_int (s : String) : Option Int :=
  match s.data with
  | [] => none
  | '-' :: rest =>
      if rest = [] then none else (decDigitsAux rest 0).map (fun n => -(n : Int))
  | '+' :: rest =>
      if rest = [] then none else (decDigitsAux rest 0).map (fun n => (n : Int))
  | l => (decDigitsAux l 0).map (fun n => (n : Int))

/-- The Python builtin `int()` applied to a call result: an `int` passes
through, `int(None)` raises `TypeError`, `int` of a non-numeric string raises
`ValueError`. -/
def int_coerce : PyPrim → Except PyErr Int
  | .pint n => .ok n
  | .pnone => .error .typeError
  | .pstr s =>
      match str_to_int s with
      | some n => .ok n
      | none => .error .valueError

/-- Call a Python value with the single argument `argv` (the call
`fn(argv)` in `call_plugin`): a non-callable or a zero-argument function
raises `TypeError` before any body runs. -/
def pyCallArgv (v : PyValue) (argv : List String) : Except PyErr PyPrim :=
  match v with
  | .prim _ => .error .typeError
  | .func (.arity0 _) => .error .typeError
  | .func (.arity1 body) => body argv
  | .func (.variadic body) => body (some argv)

/-- Call a Python value with no arguments (the call `fn()` in
`call_plugin`). -/
def pyCallNoArgs (v : PyValue) : Except PyErr PyPrim :=
  match v with
  | .prim _ => .error .typeError
  | .func (.arity0 body) => body
  | .func (.arity1 _) => .error .typeError
  | .func (.variadic body) => body none

/-- Embedding of `call_plugin` (src/task_runner.py lines 97-110): require a
`main` attribute, try `int(fn(argv))`, and on `TypeError` (from the call or
from the coercion) retry `int(fn())`.  Exceptions other than `TypeError`
propagate. -/
def call_plugin (m : PyModule) (argv : List String) : Except PyErr Int :=
  match getattr m "main" with
  | none => .error (.attributeError "Plugin must define function main(argv) or main()")
  | some fn =>
      match (pyCallArgv fn argv).bind int_coerce with
      | .ok n => .ok n
      | .error .typeError => (pyCallNoArgs fn).bind int_coerce
      | .error e => .error e

/-! ## Module content, finders and the world state -/

/-- Outcome of executing the top-level code of a module: on success the
attribute map it produced, on failure the exception together with the
attributes that had already been assigned before the failure. -/
inductive ExecOutcome where
  | success (attrs : List (String × PyValue))
  | failure (err : PyErr) (attrsSoFar : List (String × PyValue))

/-- Executable content behind a module spec.  `specOk = false` models
`spec_from_file_location` returning an unusable spec; `exec n` is the result
of the `n`-th overall execution of module code in the process (module-level
code is arbitrary, so its behaviour may differ between executions). -/
structure ModContent where
  specOk : Bool
  exec : Nat → ExecOutcome

/-- A meta-path finder: `find_spec` returns the loadable content for a name
it recognises and `none` (Python `None`, the no-match signal) otherwise. -/
structure Finder where
  find_spec : String → Option ModContent

/-- The process-wide state: the filesystem (path to module content),
`sys.meta_path` (the finder chain), `sys.modules` (the module cache), the
allocator for module object identities, and the log of module executions. -/
structure World where
  fs : List (String × ModContent)
  finders : List Finder
  modules : List (String × PyModule)
  nextId : Nat
  execLog : List String

/-- Consult the meta-path finders in order; the first one that returns a
spec wins, a finder returning `none` lets the chain continue. -/
def find_spec_chain : List Finder → String → Option ModContent
  | [], _ => none
  | f :: rest, name =>
      match f.find_spec name with
      | some c => some c
      | none => find_spec_chain rest name

/-- Embedding of `importlib.import_module` as called by `import_by_name`
(src/task_runner.py lines 49-50): return the cached module if the name is in
`sys.modules`; otherwise consult the meta-path finders, create a fresh module
object, insert it into `sys.modules`, execute it, and remove the entry again
if execution fails (CPython removes the half-initialised entry on failure). -/
def import_by_name (w : World) (name : String) : Except PyErr PyModule × World :=
  match alookup w.modules name with
  | some m => (.ok m, w)
  | none =>
      match find_spec_chain w.finders name with
      | none => (.error (.importError ("No module named " ++ name)), w)
      | some content =>
          let m0 : PyModule := ⟨w.nextId, name, none, []⟩
          let w1 : World :=
            { w with nextId := w.nextId + 1,
                     modules := setEntry w.modules name m0,
                     execLog := w.execLog ++ [name] }
          match content.exec w.execLog.length with
          | .success attrs =>
              let m : PyModule := ⟨w.nextId, name, none, attrs⟩
              (.ok m, { w1 with modules := setEntry w1.modules name m })
          | .failure e _ =>
              (.error e, { w1 with modules := removeEntry w1.modules name })

/-- Embedding of `import_from_file` (src/task_runner.py lines 53-66): fail
with `FileNotFoundError` if the path does not exist, fail with `ImportError`
if no spec can be built, otherwise create a fresh module object, put it into
`sys.modules` before executing it, and execute the file.  On execution
failure the (possibly partially populated) module object stays in
`sys.modules`; nothing removes it. -/
def import_from_file (w : World) (module_name : String) (file_path : String) :
    Except PyErr PyModule × World :=
  match alookup w.fs file_path with
  | none => (.error (.fileNotFoundError ("Plugin file not found: " ++ file_path)), w)
  | some content =>
      if content.specOk = false then
        (.error (.importError ("Could not create spec for: " ++ file_path)), w)
      else
        let w1 : World :=
          { w with nextId := w.nextId + 1,
                   modules := setEntry w.modules module_name
                     ⟨w.nextId, module_name, some file_path, []⟩,
                   execLog := w.execLog ++ [module_name] }
        match content.exec w.execLog.length with
        | .success attrs =>
            let m : PyModule := ⟨w.nextId, module_name, some file_path, attrs⟩
            (.ok m, { w1 with modules := setEntry w1.modules module_name m })
        | .failure e attrsSoFar =>
            let m : PyModule := ⟨w.nextId, module_name, some file_path, attrsSoFar⟩
            (.error e, { w1 with modules := setEntry w1.modules module_name m })

/-! ## Target parsing and plugin loading -/

/-- The three resolution intents a target string can denote. -/
inductive ResolutionIntent where
  | ByExplicitPath (path : String)
  | ByRegisteredName (name : String)
  | ByConventionDir (baseDir : String) (shortName : String)
deriving DecidableEq, Repr

/-- The target grammar of `load_plugin` (src/task_runner.py lines 78-94),
checked as ordered literal prefixes: `path:` first, then `name:`, and any
other target is a convention-directory short name.  Parsing never fails. -/
def parse_target (target : String) (plugin_dir : String) : ResolutionIntent :=
  if strStartsWith target "path:" then .ByExplicitPath (strDrop target 5)
  else if strStartsWith target "name:" then .ByRegisteredName (strDrop target 5)
  else .ByConventionDir plugin_dir target

/-- The synthetic module name (cache key) each intent produces in
`load_plugin`: path and convention loads prepend the reserved marker
`__plugin__` to the file stem respectively the short name, registered-name
loads use the name verbatim. -/
def logical_name : ResolutionIntent → String
  | .ByExplicitPath p => "__plugin__" ++ path_stem p
  | .ByRegisteredName n => n
  | .ByConventionDir _ t => "__plugin__" ++ t

/-- Embedding of `load_plugin` (src/task_runner.py lines 69-94): dispatch on
the parsed target, load from the explicit path, by registered name, or from
`plugin_dir/target.py`, and pair the module with its origin label. -/
def load_plugin (w : World) (target : String) (plugin_dir : String) :
    Except PyErr (PyModule × String) × World :=
  match parse_target target plugin_dir with
  | .ByExplicitPath path_str =>
      match import_from_file w (logical_name (.ByExplicitPath path_str)) path_str with
      | (.ok m, w2) => (.ok (m, "file:" ++ path_str), w2)
      | (.error e, w2) => (.error e, w2)
  | .ByRegisteredName name =>
      match import_by_name w name with
      | (.ok m, w2) => (.ok (m, "name:" ++ name), w2)
      | (.error e, w2) => (.error e, w2)
  | .ByConventionDir d t =>
      let p := d ++ "/" ++ t ++ ".py"
      match import_from_file w (logical_name (.ByConventionDir d t)) p with
      | (.ok m, w2) => (.ok (m, "plugin:" ++ p), w2)
      | (.error e, w2) => (.error e, w2)

/-! ## Reload and the run subcommand -/

/-- A human-readable rendering of an exception (Python `repr(e)`), used in
the reload warning message. -/
def errRepr : PyErr → String
  | .typeError => "TypeError()"
  | .valueError => "ValueError()"
  | .attributeError msg => "AttributeError(" ++ msg ++ ")"
  | .fileNotFoundError msg => "FileNotFoundError(" ++ msg ++ ")"
  | .importError msg => "ImportError(" ++ msg ++ ")"
  | .exc msg => "Exception(" ++ msg ++ ")"

/-- Result of `importlib.reload`: the exception if one was raised, the state
of the module object afterwards (the same object, hence the same id:
`reload` re-executes in place and never allocates a new module), and the
updated world. -/
structure ReloadResult where
  err : Option PyErr
  module : PyModule
  world : World

/-- The content source a reload re-executes: the originating file for
file-based modules, the meta-path finder chain otherwise. -/
def find_content (w : World) (m : PyModule) : Option ModContent :=
  match m.origin with
  | some path => alookup w.fs path
  | none => find_spec_chain w.finders m.name

/-- Embedding of `importlib.reload` as called by `main` (src/task_runner.py
line 190): require that the module is the current `sys.modules` entry for its
name, re-resolve its content, and re-execute the content against the existing
module object (whose attribute dict is updated, not replaced; the object
identity is preserved).  On failure the partially updated object remains the
cache entry. -/
def importlib_reload (w : World) (m : PyModule) : ReloadResult :=
  match alookup w.modules m.name with
  | none => ⟨some (.importError ("module " ++ m.name ++ " not in sys.modules")), m, w⟩
  | some cur =>
      if cur.id = m.id then
        match find_content w m with
        | none => ⟨some (.importError ("spec not found for " ++ m.name)), m, w⟩
        | some content =>
            let w1 : World := { w with execLog := w.execLog ++ [m.name] }
            match content.exec w.execLog.length with
            | .success attrs =>
                let m2 : PyModule := ⟨m.id, m.name, m.origin, attrs ++ m.attrs⟩
                ⟨none, m2, { w1 with modules := setEntry w1.modules m.name m2 }⟩
            | .failure e attrsSoFar =>
                let m2 : PyModule := ⟨m.id, m.name, m.origin, attrsSoFar ++ m.attrs⟩
                ⟨some e, m2, { w1 with modules := setEntry w1.modules m.name m2 }⟩
      else ⟨some (.importError ("module " ++ m.name ++ " not in sys.modules")), m, w⟩

/-- Drop every `--` separator from the trailing CLI arguments
(src/task_runner.py line 200: a list comprehension keeping the elements
different from `--`). -/
def strip_seps (args : List String) : List String :=
  args.filter (fun a => decide (a ≠ "--"))

/-- Observable outcome of the `run` subcommand: the integer status or the
exception, the final process state, and the warnings printed along the way. -/
structure RunOutput where
  result : Except PyErr Int
  world : World
  warnings : List String

/-- Embedding of the `run` branch of `main` (src/task_runner.py lines
184-201): load the target, optionally reload it (a reload failure is printed
as a warning and the previous module object stays in use), strip the `--`
separators from the trailing arguments, and invoke the plugin. -/
def runCommand (w : World) (target : String) (plugin_dir : String) (doReload : Bool)
    (plugin_args : List String) : RunOutput :=
  match load_plugin w target plugin_dir with
  | (.error e, w1) => ⟨.error e, w1, []⟩
  | (.ok (m, _label), w1) =>
      let step : PyModule × World × List String :=
        if doReload then
          let r := importlib_reload w1 m
          match r.err with
          | none => (r.module, r.world, [])
          | some e =>
              (r.module, r.world,
               ["[reload] failed, continuing without reload: " ++ errRepr e])
        else (m, w1, [])
      match step with
      | (m2, w2, warns) => ⟨call_plugin m2 (strip_seps plugin_args), w2, warns⟩

/-! ## Directory listing -/

/-- A listing entry: plugin short name and its origin path. -/
structure PluginInfo where
  name : String
  origin : String
deriving DecidableEq, Repr

/-- Python `sorted` (stable, lexicographic on code points) on file names,
realised as insertion sort with the `strLeP` relation. -/
def sortNames (l : List String) : List String := List.insertionSort strLeP l

/-- The file names `list_plugins` iterates over: the `*.py` entries of the
directory (glob does not match names with a leading dot), sorted, with the
names starting with the underscore exclusion marker skipped. -/
def plugin_file_names (entries : List String) : List String :=
  (sortNames (entries.filter
      (fun n => strEndsWith n ".py" && !(strStartsWith n ".")))).filter
    (fun n => !(strStartsWith n "_"))

/-- Embedding of `list_plugins` (src/task_runner.py lines 36-46): an absent
directory gives the empty listing, otherwise the sorted, filtered `*.py`
entries become `PluginInfo` records (stem plus full path).  The directory is
given as `none` when it does not exist and as the list of its entries
otherwise. -/
def list_plugins (plugin_dir : String) (listing : Option (List String)) :
    List PluginInfo :=
  match listing with
  | none => []
  | some entries =>
      (plugin_file_names entries).map
        (fun n => ⟨path_stem n, plugin_dir ++ "/" ++ n⟩)

/-! ## The import-hook demo -/

/-- The attributes `DemoFinder.exec_module` assigns
(src/import_hook_demo.py lines 24-27): `VALUE = 123`, a zero-argument
`hello` returning a string, and a doc string.  No `main` attribute is
assigned. -/
def demo_hook_attrs : List (String × PyValue) :=
  [("VALUE", .prim (.pint 123)),
   ("hello", .func (.arity0 (.ok (.pstr "hook works")))),
   ("__doc__", .prim (.pstr "Synthetic module created at import time by DemoFinder"))]

/-- The module content the demo finder loads: executing it always succeeds
and produces `demo_hook_attrs`. -/
def demo_hook_content : ModContent := ⟨true, fun _ => .success demo_hook_attrs⟩

/-- The finder method `DemoFinder.find_spec` (src/import_hook_demo.py lines
15-18): a spec for exactly the name `demo_hook`, `None` for every other
name. -/
def DemoFinder_find_spec (fullname : String) : Option ModContent :=
  if fullname = "demo_hook" then some demo_hook_content else none

/-- The `DemoFinder` instance inserted at the front of `sys.meta_path` by
the demo (src/import_hook_demo.py line 34). -/
def demoFinder : Finder := ⟨DemoFinder_find_spec⟩

/-! ## General lemmas about the embedding -/

theorem charsLe_trans : ∀ a b c : List Char,
    charsLe a b = true → charsLe b c = true → charsLe a c = true
  | [], _, _, _, _ => rfl
  | _ :: _, [], _, h, _ => by simp [charsLe] at h
  | _ :: _, _ :: _, [], _, h2 => by simp [charsLe] at h2
  | a :: as, b :: bs, c :: cs, h1, h2 => by
      simp only [charsLe] at h1 h2 ⊢
      by_cases hab : a.toNat < b.toNat
      · by_cases hbc : b.toNat < c.toNat
        · have hac : a.toNat < c.toNat := Nat.lt_trans hab hbc
          simp [hac]
        · rw [if_neg hbc] at h2
          by_cases hcb : c.toNat < b.toNat
          · rw [if_pos hcb] at h2; simp at h2
          · have hac : a.toNat < c.toNat := by omega
            simp [hac]
      · rw [if_neg hab] at h1
        by_cases hba : b.toNat < a.toNat
        · rw [if_pos hba] at h1; simp at h1
        · rw [if_neg hba] at h1
          by_cases hbc : b.toNat < c.toNat
          · have hac : a.toNat < c.toNat := by omega
            simp [hac]
          · rw [if_neg hbc] at h2
            by_cases hcb : c.toNat < b.toNat
            · rw [if_pos hcb] at h2; simp at h2
            · rw [if_neg hcb] at h2
              have hac : ¬ a.toNat < c.toNat := by omega
              have hca : ¬ c.toNat < a.toNat := by omega
              rw [if_neg hac, if_neg hca]
              exact charsLe_trans as bs cs h1 h2

theorem charsLe_total : ∀ a b : List Char, charsLe a b = true ∨ charsLe b a = true
  | [], _ => Or.inl rfl
  | _ :: _, [] => Or.inr rfl
  | a :: as, b :: bs => by
      simp only [charsLe]
      rcases Nat.lt_trichotomy a.toNat b.toNat with h | h | h
      · left; simp [h]
      · have h1 : ¬ a.toNat < b.toNat := by omega
        have h2 : ¬ b.toNat < a.toNat := by omega
        rw [if_neg h1, if_neg h2, if_neg h2, if_neg h1]
        exact charsLe_total as bs
      · right; simp [h]

instance : IsTrans String strLeP :=
  ⟨fun a b c h1 h2 => charsLe_trans a.data b.data c.data h1 h2⟩

instance : IsTotal String strLeP :=
  ⟨fun a b => charsLe_total a.data b.data⟩

theorem alookup_setEntry_self {α : Type} (l : List (String × α)) (n : String) (v : α) :
    alookup (setEntry l n v) n = some v := by
  induction l with
  | nil => simp [setEntry, alookup]
  | cons p rest ih =>
      obtain ⟨k, w⟩ := p
      by_cases h : k = n
      · simp [setEntry, h, alookup]
      · simp [setEntry, h, alookup, ih]

/-- Prepending the reserved plugin marker always changes a string (the two
have different lengths), so a marker-prefixed cache key never equals the bare
short name. -/
theorem marker_append_ne (t : String) : "__plugin__" ++ t ≠ t := by
  intro h
  have hlen : ("__plugin__" ++ t).data.length = t.data.length := by rw [h]
  have hdata : ("__plugin__" ++ t).data = "__plugin__".data ++ t.data := rfl
  rw [hdata, List.length_append] at hlen
  have h10 : "__plugin__".data.length = 10 := by decide
  omega

/-! ## C3: target parsing -/

/-- C3: for every target string and base directory, parsing yields exactly one
of three intents by ordered literal prefix check: a `path:` target yields
`ByExplicitPath` of the remainder regardless of base directory, a `name:`
target yields `ByRegisteredName` of the remainder, and any other target `T`
yields `ByConventionDir`, which `load_plugin` realises as loading the file
`baseDir/T.py`; parsing itself is total and never fails. -/
theorem C3_parse_intents :
    (∀ t d d2 : String, strStartsWith t "path:" = true →
        parse_target t d = .ByExplicitPath (strDrop t 5) ∧
        parse_target t d = parse_target t d2) ∧
    (∀ t d : String, strStartsWith t "path:" = false →
        strStartsWith t "name:" = true →
        parse_target t d = .ByRegisteredName (strDrop t 5)) ∧
    (∀ t d : String, strStartsWith t "path:" = false →
        strStartsWith t "name:" = false →
        parse_target t d = .ByConventionDir d t) ∧
    (∀ (w : World) (t d : String), strStartsWith t "path:" = false →
        strStartsWith t "name:" = false →
        (load_plugin w t d).1 =
          Except.map (fun m => (m, "plugin:" ++ (d ++ "/" ++ t ++ ".py")))
            (import_from_file w ("__plugin__" ++ t) (d ++ "/" ++ t ++ ".py")).1 ∧
        (load_plugin w t d).2 =
          (import_from_file w ("__plugin__" ++ t) (d ++ "/" ++ t ++ ".py")).2) := by
  refine ⟨?_, ?_, ?_, ?_⟩
  · intro t d d2 h
    constructor <;> simp [parse_target, h]
  · intro t d h1 h2
    simp [parse_target, h1, h2]
  · intro t d h1 h2
    simp [parse_target, h1, h2]
  · intro w t d h1 h2
    have hp : parse_target t d = .ByConventionDir d t := by simp [parse_target, h1, h2]
    rcases himp : import_from_file w ("__plugin__" ++ t) (d ++ "/" ++ t ++ ".py")
      with ⟨r, w2⟩
    cases r <;>
      simp [load_plugin, hp, logical_name, himp, Except.map]

/-- Witness for C3 at the concrete examples of the specification. -/
theorem C3_witness :
    parse_target "path:/a/b.ext" "./plugins" = .ByExplicitPath "/a/b.ext" ∧
    parse_target "path:/a/b.ext" "/other" = parse_target "path:/a/b.ext" "./plugins" ∧
    parse_target "name:json" "./plugins" = .ByRegisteredName "json" ∧
    parse_target "hello" "./plugins" = .ByConventionDir "./plugins" "hello" := by
  refine ⟨?_, ?_, ?_, ?_⟩
  · exact ((C3_parse_intents.1 "path:/a/b.ext" "./plugins" "/other" (by decide)).1).trans
      (by decide)
  · exact (C3_parse_intents.1 "path:/a/b.ext" "/other" "./plugins" (by decide)).2
  · exact (C3_parse_intents.2.1 "name:json" "./plugins" (by decide) (by decide)).trans
      (by decide)
  · exact C3_parse_intents.2.2.1 "hello" "./plugins" (by decide) (by decide)

/-! ## C4: synthetic logical names -/

/-- C4 counterexample: the explicit-path target `path:/a/hello.py` and the
convention target `hello` parse to two distinct intents of different kinds,
yet both produce the same synthetic logical name `__plugin__hello`, so cache
entries of different intents can collide, contrary to the claim. -/
theorem C4_counterexample :
    parse_target "path:/a/hello.py" "./plugins" ≠ parse_target "hello" "./plugins" ∧
    logical_name (parse_target "path:/a/hello.py" "./plugins") =
      logical_name (parse_target "hello" "./plugins") := by
  constructor
  · decide
  · decide

/-- C4 (amended): `ByRegisteredName` uses the name verbatim while
`ByExplicitPath` and `ByConventionDir` derive `__plugin__` plus the stem or
short name, so a path or convention load never shares a cache key with a
registered-name lookup of the same short name; collision freedom does not
extend to path versus convention intents with the same stem. -/
theorem C4_amended_marker :
    (∀ n : String, logical_name (.ByRegisteredName n) = n) ∧
    (∀ d t : String, logical_name (.ByConventionDir d t) = "__plugin__" ++ t) ∧
    (∀ p : String, logical_name (.ByExplicitPath p) = "__plugin__" ++ path_stem p) ∧
    (∀ d t : String,
        logical_name (.ByConventionDir d t) ≠ logical_name (.ByRegisteredName t)) ∧
    (∀ p : String,
        logical_name (.ByExplicitPath p) ≠
          logical_name (.ByRegisteredName (path_stem p))) := by
  refine ⟨fun n => rfl, fun d t => rfl, fun p => rfl, ?_, ?_⟩
  · intro d t
    exact marker_append_ne t
  · intro p
    exact marker_append_ne (path_stem p)

/-! ## C7: directory listing -/

/-- C7: listing returns the directory entries that are source files, sorted
lexicographically by file name, excluding names beginning with the private
underscore marker and excluding non-`.py` files; a nonexistent or empty
directory lists as the empty sequence; a directory holding `_private.py`,
`a.py` and `b.py` lists exactly `a` then `b`. -/
theorem C7_listing :
    (∀ d : String, list_plugins d none = []) ∧
    (∀ d : String, list_plugins d (some []) = []) ∧
    (∀ entries : List String, List.Sorted strLeP (plugin_file_names entries)) ∧
    (∀ (entries : List String) (n : String), n ∈ plugin_file_names entries →
        strStartsWith n "_" = false ∧ strEndsWith n ".py" = true ∧ n ∈ entries) ∧
    (list_plugins "plugs" (some ["b.py", "_private.py", "a.py"]) =
      [⟨"a", "plugs/a.py"⟩, ⟨"b", "plugs/b.py"⟩]) := by
  refine ⟨fun d => rfl, fun d => rfl, ?_, ?_, by decide⟩
  · intro entries
    have hs : List.Sorted strLeP (sortNames (entries.filter
        (fun n => strEndsWith n ".py" && !(strStartsWith n ".")))) :=
      List.sorted_insertionSort strLeP _
    exact List.Pairwise.sublist (List.filter_sublist _) hs
  · intro entries n hn
    rw [plugin_file_names, List.mem_filter] at hn
    obtain ⟨hsort, hmark⟩ := hn
    rw [sortNames, (List.perm_insertionSort strLeP _).mem_iff, List.mem_filter] at hsort
    obtain ⟨hmem, hpy⟩ := hsort
    refine ⟨?_, ?_, hmem⟩
    · simpa using hmark
    · simpa using (Bool.and_eq_true_iff.mp hpy).1

/-- Witness for C7: the file `a.py` from the example directory passes the
listing filters. -/
theorem C7_witness :
    strStartsWith "a.py" "_" = false ∧ strEndsWith "a.py" ".py" = true ∧
      ("a.py" : String) ∈ ["b.py", "_private.py", "a.py"] :=
  C7_listing.2.2.2.1 ["b.py", "_private.py", "a.py"] "a.py" (by decide)

/-! ## C2: invocation calling convention -/

/-- Body of a star-args entry point whose one-argument call returns `None`
(so the `int()` coercion raises `TypeError`) and whose zero-argument call
returns `0`. -/
def c2_variadic_body : Option (List String) → Except PyErr PyPrim
  | some _ => .ok .pnone
  | none => .ok (.pint 0)

/-- A loaded module whose `main` accepts both calling conventions and returns
`None` when given the argument list. -/
def c2_module : PyModule :=
  ⟨0, "__plugin__strange", none, [("main", .func (.variadic c2_variadic_body))]⟩

/-- C2 counterexample: invoking `c2_module` with arguments, the first call
succeeds (no argument-count mismatch) but the return value `None` fails the
integer coercion with `TypeError`; instead of propagating that error, as the
claim requires, `call_plugin` falls back to the zero-argument call and
returns `0`. -/
theorem C2_counterexample :
    pyCallArgv (.func (.variadic c2_variadic_body)) ["x", "y"] = .ok .pnone ∧
    int_coerce .pnone = .error .typeError ∧
    call_plugin c2_module ["x", "y"] = .ok 0 :=
  ⟨rfl, rfl, rfl⟩

/-- C2 (amended): `invoke` first calls the entry point with the argument
list; it retries with a zero-argument call whenever the first attempt (the
call together with the integer coercion of its result) raises `TypeError` of
any origin, in particular on an argument-count mismatch; any exception other
than `TypeError` propagates without triggering the fallback. -/
theorem C2_amended_fallback :
    (∀ (m : PyModule) (argv : List String) (f : List String → Except PyErr PyPrim)
        (n : Int),
        getattr m "main" = some (.func (.arity1 f)) → f argv = .ok (.pint n) →
        call_plugin m argv = .ok n) ∧
    (∀ (m : PyModule) (argv : List String) (r : Except PyErr PyPrim) (n : Int),
        getattr m "main" = some (.func (.arity0 r)) → r = .ok (.pint n) →
        call_plugin m argv = .ok n) ∧
    (∀ (m : PyModule) (argv : List String) (f : List String → Except PyErr PyPrim)
        (e : PyErr),
        getattr m "main" = some (.func (.arity1 f)) → f argv = .error e →
        e ≠ .typeError →
        call_plugin m argv = .error e) ∧
    (∀ (m : PyModule) (argv : List String) (f : List String → Except PyErr PyPrim),
        getattr m "main" = some (.func (.arity1 f)) → f argv = .error .typeError →
        call_plugin m argv = .error .typeError) := by
  refine ⟨?_, ?_, ?_, ?_⟩
  · intro m argv f n hmain hf
    simp [call_plugin, hmain, pyCallArgv, hf, Except.bind, int_coerce]
  · intro m argv r n hmain hr
    simp [call_plugin, hmain, pyCallArgv, pyCallNoArgs, hr, Except.bind, int_coerce]
  · intro m argv f e hmain hf hne
    cases e <;>
      simp_all [call_plugin, hmain, pyCallArgv, hf, Except.bind]
  · intro m argv f hmain hf
    simp [call_plugin, hmain, pyCallArgv, pyCallNoArgs, hf, Except.bind]

/-- A loaded module whose `main` takes no arguments and returns `7`. -/
def c2w_module : PyModule := ⟨1, "m0", none, [("main", .func (.arity0 (.ok (.pint 7))))]⟩

/-- Witness for C2: a zero-argument entry point invoked with arguments falls
back to the zero-argument call and returns its status instead of raising. -/
theorem C2_witness :
    getattr c2w_module "main" = some (.func (.arity0 (.ok (.pint 7)))) ∧
    call_plugin c2w_module ["x", "y"] = .ok 7 :=
  ⟨rfl, C2_amended_fallback.2.1 c2w_module ["x", "y"] (.ok (.pint 7)) 7 rfl rfl⟩

/-! ## C8: missing entry point -/

/-- C8: if the loaded unit has no `main` attribute, running it fails with the
missing-entry-point `AttributeError` and the invocation changes nothing: the
final state is exactly the state right after loading and no warning is
emitted. -/
theorem C8_missing_entry :
    ∀ (w : World) (t d : String) (args : List String) (m : PyModule)
      (label : String) (w1 : World),
      load_plugin w t d = (.ok (m, label), w1) →
      getattr m "main" = none →
      runCommand w t d false args =
        ⟨.error (.attributeError "Plugin must define function main(argv) or main()"),
         w1, []⟩ := by
  intro w t d args m label w1 hload hmain
  simp [runCommand, hload, call_plugin, hmain]

/-- Content of a plugin file that defines no attributes at all. -/
def c8_content : ModContent := ⟨true, fun _ => .success []⟩

/-- Initial state for the C8 witness: one plugin file without `main`. -/
def c8_w0 : World := ⟨[("plugs/noentry.py", c8_content)], [], [], 0, []⟩

/-- The module produced by loading `noentry` in `c8_w0`. -/
def c8_m : PyModule := ⟨0, "__plugin__noentry", some "plugs/noentry.py", []⟩

/-- The state after loading `noentry` in `c8_w0`. -/
def c8_w1 : World :=
  ⟨[("plugs/noentry.py", c8_content)], [], [("__plugin__noentry", c8_m)], 1,
   ["__plugin__noentry"]⟩

/-- Witness for C8 on a concrete plugin without entry point. -/
theorem C8_witness :
    load_plugin c8_w0 "noentry" "plugs" = (.ok (c8_m, "plugin:plugs/noentry.py"), c8_w1) ∧
    runCommand c8_w0 "noentry" "plugs" false [] =
      ⟨.error (.attributeError "Plugin must define function main(argv) or main()"),
       c8_w1, []⟩ :=
  ⟨rfl, C8_missing_entry c8_w0 "noentry" "plugs" [] c8_m "plugin:plugs/noentry.py"
    c8_w1 rfl rfl⟩

/-! ## C10: separator stripping -/

/-- C10: every element equal to `--` is removed from the trailing argument
list before it reaches the entry point, not only the first separator, so the
entry point can never receive `--` as an element; all other elements are
kept. -/
theorem C10_separator_stripping :
    (∀ args : List String, ("--" : String) ∉ strip_seps args) ∧
    (∀ (args : List String) (a : String), a ∈ strip_seps args ↔ a ∈ args ∧ a ≠ "--") ∧
    (strip_seps ["--", "x", "--", "--", "y", "--"] = ["x", "y"]) ∧
    (∀ (w : World) (t d : String) (args : List String) (m : PyModule)
        (label : String) (w1 : World),
        load_plugin w t d = (.ok (m, label), w1) →
        (runCommand w t d false args).result = call_plugin m (strip_seps args)) := by
  refine ⟨?_, ?_, by decide, ?_⟩
  · intro args h
    rw [strip_seps, List.mem_filter] at h
    simp at h
  · intro args a
    rw [strip_seps, List.mem_filter]
    simp
  · intro w t d args m label w1 hload
    simp [runCommand, hload]

/-- Witness for C10: a run on a loaded module passes exactly the stripped
argument list to the invocation adapter. -/
theorem C10_witness :
    (runCommand c8_w0 "noentry" "plugs" false ["x", "--", "y"]).result =
      call_plugin c8_m (strip_seps ["x", "--", "y"]) :=
  C10_separator_stripping.2.2.2 c8_w0 "noentry" "plugs" ["x", "--", "y"] c8_m
    "plugin:plugs/noentry.py" c8_w1 rfl

/-! ## C5: eager cache insertion for file-based loads -/

/-- C5: a file-based load whose source is missing fails before any cache
insertion and leaves the whole state unchanged; once the source exists and a
spec is built, the module object is in the cache from before execution, so
when execution fails the partially populated unit remains cached under its
logical name, and on success the populated unit is cached. -/
theorem C5_eager_insertion :
    (∀ (w : World) (n fp : String), alookup w.fs fp = none →
        import_from_file w n fp =
          (.error (.fileNotFoundError ("Plugin file not found: " ++ fp)), w)) ∧
    (∀ (w : World) (n fp : String) (content : ModContent) (e : PyErr)
        (attrsSoFar : List (String × PyValue)),
        alookup w.fs fp = some content → content.specOk = true →
        content.exec w.execLog.length = .failure e attrsSoFar →
        (import_from_file w n fp).1 = .error e ∧
        alookup (import_from_file w n fp).2.modules n =
          some ⟨w.nextId, n, some fp, attrsSoFar⟩) ∧
    (∀ (w : World) (n fp : String) (content : ModContent)
        (attrs : List (String × PyValue)),
        alookup w.fs fp = some content → content.specOk = true →
        content.exec w.execLog.length = .success attrs →
        (import_from_file w n fp).1 = .ok ⟨w.nextId, n, some fp, attrs⟩ ∧
        alookup (import_from_file w n fp).2.modules n =
          some ⟨w.nextId, n, some fp, attrs⟩) := by
  refine ⟨?_, ?_, ?_⟩
  · intro w n fp hfs
    simp [import_from_file, hfs]
  · intro w n fp content e attrsSoFar hfs hspec hexec
    simp [import_from_file, hfs, hspec, hexec, alookup_setEntry_self]
  · intro w n fp content attrs hfs hspec hexec
    simp [import_from_file, hfs, hspec, hexec, alookup_setEntry_self]

/-- Content of a plugin file whose execution always fails after having set
one attribute. -/
def c5_content : ModContent :=
  ⟨true, fun _ => .failure (.exc "boom") [("X", .prim (.pint 1))]⟩

/-- Initial state for the C5 witness. -/
def c5_w0 : World := ⟨[("plugs/bad.py", c5_content)], [], [], 0, []⟩

/-- Witness for C5: the failing load reports the execution error yet leaves
the partially populated unit in the cache, and a missing file aborts with the
state untouched. -/
theorem C5_witness :
    (import_from_file c5_w0 "__plugin__bad" "plugs/bad.py").1 = .error (.exc "boom") ∧
    alookup (import_from_file c5_w0 "__plugin__bad" "plugs/bad.py").2.modules
        "__plugin__bad" =
      some ⟨0, "__plugin__bad", some "plugs/bad.py", [("X", .prim (.pint 1))]⟩ ∧
    import_from_file c5_w0 "nope" "plugs/missing.py" =
      (.error (.fileNotFoundError ("Plugin file not found: " ++ "plugs/missing.py")),
       c5_w0) := by
  have h2 := C5_eager_insertion.2.1 c5_w0 "__plugin__bad" "plugs/bad.py" c5_content
    (.exc "boom") [("X", .prim (.pint 1))] rfl rfl rfl
  exact ⟨h2.1, h2.2, C5_eager_insertion.1 c5_w0 "nope" "plugs/missing.py" rfl⟩

/-! ## C1: at-most-one load per logical identity -/

/-- C1 (amended): loading by registered name is cached, so a second
name-based load returns the identical module object and changes nothing (in
particular it does not re-execute anything); file-based loads, in contrast,
re-execute the file content on every load and, when they succeed, produce a
unit with a fresh object identity that overwrites the cache entry. -/
theorem C1_amended_caching :
    (∀ (w : World) (n : String) (m : PyModule) (w2 : World),
        import_by_name w n = (.ok m, w2) → import_by_name w2 n = (.ok m, w2)) ∧
    (∀ (w : World) (n fp : String) (m : PyModule) (w2 : World),
        import_from_file w n fp = (.ok m, w2) →
        (import_from_file w2 n fp).2.execLog.length = w2.execLog.length + 1 ∧
        (∀ (m3 : PyModule) (w3 : World), import_from_file w2 n fp = (.ok m3, w3) →
            m3.id ≠ m.id ∧ alookup w3.modules n = some m3)) := by
  constructor
  · intro w n m m2 h
    rcases hcache : alookup w.modules n with _ | cm
    · rcases hfind : find_spec_chain w.finders n with _ | content
      · simp [import_by_name, hcache, hfind] at h
      · rcases hexec : content.exec w.execLog.length with attrs | ⟨e, soFar⟩
        · simp only [import_by_name, hcache, hfind, hexec] at h
          rw [Prod.mk.injEq] at h
          obtain ⟨hm, hw⟩ := h
          rw [Except.ok.injEq] at hm
          subst hw
          subst hm
          simp [import_by_name, alookup_setEntry_self]
        · simp [import_by_name, hcache, hfind, hexec] at h
    · simp only [import_by_name, hcache] at h
      rw [Prod.mk.injEq] at h
      obtain ⟨hm, hw⟩ := h
      rw [Except.ok.injEq] at hm
      subst hw
      subst hm
      simp [import_by_name, hcache]
  · intro w n fp m w2 h
    rcases hfs : alookup w.fs fp with _ | content
    · simp [import_from_file, hfs] at h
    · rcases hspec : content.specOk with _ | _
      · simp [import_from_file, hfs, hspec] at h
      · rcases hexec : content.exec w.execLog.length with attrs | ⟨e, soFar⟩
        · simp only [import_from_file, hfs, hspec, Bool.true_eq_false, if_false,
            hexec] at h
          rw [Prod.mk.injEq] at h
          obtain ⟨hm, hw⟩ := h
          rw [Except.ok.injEq] at hm
          subst hw
          subst hm
          constructor
          · rcases hexec2 : content.exec (w.execLog.length + 1) with attrs2 | ⟨e2, soFar2⟩ <;>
              simp [import_from_file, hfs, hspec, hexec2]
          · intro m3 w3 h3
            rcases hexec2 : content.exec (w.execLog.length + 1) with attrs2 | ⟨e2, soFar2⟩
            · simp only [import_from_file, hfs, hspec, Bool.true_eq_false, if_false,
                List.length_append, List.length_singleton, hexec2] at h3
              rw [Prod.mk.injEq] at h3
              obtain ⟨hm3, hw3⟩ := h3
              rw [Except.ok.injEq] at hm3
              subst hw3
              subst hm3
              exact ⟨by simp, alookup_setEntry_self _ _ _⟩
            · simp only [import_from_file, hfs, hspec, Bool.true_eq_false, if_false,
                List.length_append, List.length_singleton, hexec2] at h3
              simp at h3
        · simp [import_from_file, hfs, hspec, hexec] at h

/-- Content of a plugin file that sets no attributes and always executes
successfully. -/
def c1_content : ModContent := ⟨true, fun _ => .success []⟩

/-- Initial state for the C1 counterexample: one convention plugin file. -/
def c1f_w0 : World := ⟨[("plugs/hello.py", c1_content)], [], [], 0, []⟩

/-- The unit the first load of `hello` produces. -/
def c1f_m1 : PyModule := ⟨0, "__plugin__hello", some "plugs/hello.py", []⟩

/-- The unit the second load of `hello` produces: same name, fresh identity. -/
def c1f_m2 : PyModule := ⟨1, "__plugin__hello", some "plugs/hello.py", []⟩

/-- The state after the first load of `hello`. -/
def c1f_w1 : World :=
  ⟨[("plugs/hello.py", c1_content)], [], [("__plugin__hello", c1f_m1)], 1,
   ["__plugin__hello"]⟩

/-- C1 counterexample: loading the convention target `hello` twice, with no
reload requested, executes the file twice (the execution log grows from one
entry to two) and the second load returns a unit with a different object
identity than the first, contradicting the claimed at-most-one-load
invariant for every logical name. -/
theorem C1_counterexample :
    load_plugin c1f_w0 "hello" "plugs" = (.ok (c1f_m1, "plugin:plugs/hello.py"), c1f_w1) ∧
    (load_plugin c1f_w1 "hello" "plugs").1 = .ok (c1f_m2, "plugin:plugs/hello.py") ∧
    c1f_m2.id ≠ c1f_m1.id ∧
    c1f_w1.execLog = ["__plugin__hello"] ∧
    (load_plugin c1f_w1 "hello" "plugs").2.execLog =
      ["__plugin__hello", "__plugin__hello"] :=
  ⟨rfl, rfl, by decide, rfl, rfl⟩

/-- A finder recognising the registered name `json`. -/
def c1n_finder : Finder := ⟨fun n => if n = "json" then some c1_content else none⟩

/-- Initial state for the C1 witness: the `json` finder, empty cache. -/
def c1n_w0 : World := ⟨[], [c1n_finder], [], 0, []⟩

/-- The module the first name-based load of `json` produces. -/
def c1n_m : PyModule := ⟨0, "json", none, []⟩

/-- The state after the first name-based load of `json`. -/
def c1n_w1 : World := ⟨[], [c1n_finder], [("json", c1n_m)], 1, ["json"]⟩

/-- Witness for C1 (amended): a second name-based load of `json` returns the
identical cached module and leaves the state untouched, while a second
file-based load of `hello` executes again. -/
theorem C1_witness :
    import_by_name c1n_w0 "json" = (.ok c1n_m, c1n_w1) ∧
    import_by_name c1n_w1 "json" = (.ok c1n_m, c1n_w1) ∧
    (import_from_file c1f_w1 "__plugin__hello" "plugs/hello.py").2.execLog.length =
      c1f_w1.execLog.length + 1 :=
  ⟨rfl, C1_amended_caching.1 c1n_w0 "json" c1n_m c1n_w1 rfl,
   (C1_amended_caching.2 c1f_w0 "__plugin__hello" "plugs/hello.py" c1f_m1 c1f_w1
      rfl).1⟩

/-! ## C6: reload failure is non-fatal -/

/-- Reload never changes the identity of the module object: it re-executes
into the existing object or fails before touching it. -/
theorem importlib_reload_id (w : World) (m : PyModule) :
    (importlib_reload w m).module.id = m.id := by
  unfold importlib_reload
  rcases h1 : alookup w.modules m.name with _ | cur
  · rfl
  · by_cases h : cur.id = m.id
    · simp only [if_pos h]
      rcases h2 : find_content w m with _ | content
      · rfl
      · simp only []
        rcases h3 : content.exec w.execLog.length with attrs | ⟨e, soFar⟩ <;> simp [h3]
    · simp only [if_neg h]

/-- C6: if the explicitly requested reload raises any exception, the run
reports it as the single warning, keeps using the very module object the
load produced (same identity), and proceeds to the invocation instead of
aborting. -/
theorem C6_reload_nonfatal :
    ∀ (w : World) (t d : String) (args : List String) (m : PyModule)
      (label : String) (w1 : World) (e : PyErr),
      load_plugin w t d = (.ok (m, label), w1) →
      (importlib_reload w1 m).err = some e →
      (runCommand w t d true args).result =
          call_plugin (importlib_reload w1 m).module (strip_seps args) ∧
      (importlib_reload w1 m).module.id = m.id ∧
      (runCommand w t d true args).warnings =
          ["[reload] failed, continuing without reload: " ++ errRepr e] := by
  intro w t d args m label w1 e hload herr
  refine ⟨?_, importlib_reload_id w1 m, ?_⟩
  · simp [runCommand, hload, herr]
  · simp [runCommand, hload, herr]

/-- The entry point of the C6 witness plugin. -/
def c6_main_val : PyValue := .func (.arity0 (.ok (.pint 0)))

/-- Content of a plugin file whose first execution succeeds and whose
re-execution (the reload) raises. -/
def c6_content : ModContent :=
  ⟨true, fun n => if n = 0 then .success [("main", c6_main_val)]
                  else .failure (.exc "boom") []⟩

/-- Initial state for the C6 witness. -/
def c6_w0 : World := ⟨[("plugs/hello.py", c6_content)], [], [], 0, []⟩

/-- The module the first load of the C6 witness produces. -/
def c6_m0 : PyModule := ⟨0, "__plugin__hello", some "plugs/hello.py", [("main", c6_main_val)]⟩

/-- The state after the first load of the C6 witness. -/
def c6_w1 : World :=
  ⟨[("plugs/hello.py", c6_content)], [], [("__plugin__hello", c6_m0)], 1,
   ["__plugin__hello"]⟩

/-- Witness for C6: a concrete run with `--reload` whose re-execution raises
warns once, keeps the previously loaded unit, and still reaches the
invocation. -/
theorem C6_witness :
    load_plugin c6_w0 "hello" "plugs" = (.ok (c6_m0, "plugin:plugs/hello.py"), c6_w1) ∧
    (importlib_reload c6_w1 c6_m0).err = some (.exc "boom") ∧
    (runCommand c6_w0 "hello" "plugs" true ["a"]).warnings =
      ["[reload] failed, continuing without reload: " ++ errRepr (.exc "boom")] ∧
    (runCommand c6_w0 "hello" "plugs" true ["a"]).result =
      call_plugin (importlib_reload c6_w1 c6_m0).module (strip_seps ["a"]) ∧
    (importlib_reload c6_w1 c6_m0).module.id = c6_m0.id := by
  have h := C6_reload_nonfatal c6_w0 "hello" "plugs" ["a"] c6_m0 "plugin:plugs/hello.py"
    c6_w1 (.exc "boom") rfl rfl
  exact ⟨rfl, rfl, h.2.2, h.1, h.2.1⟩

/-! ## C9: the demo finder -/

/-- C9: the demo finder returns a spec for exactly the name `demo_hook` and
the no-match signal for every other name, letting the rest of the chain run;
registered at the front of the chain, importing `demo_hook` yields a unit
whose `VALUE` attribute is `123` and which has no `main` attribute, so
invoking it fails with the missing-entry-point error. -/
theorem C9_demo_finder :
    (DemoFinder_find_spec "demo_hook" = some demo_hook_content) ∧
    (∀ n : String, n ≠ "demo_hook" → DemoFinder_find_spec n = none) ∧
    (∀ rest : List Finder,
        find_spec_chain (demoFinder :: rest) "demo_hook" = some demo_hook_content) ∧
    (∀ (rest : List Finder) (n : String), n ≠ "demo_hook" →
        find_spec_chain (demoFinder :: rest) n = find_spec_chain rest n) ∧
    (∀ (w : World) (rest : List Finder),
        w.finders = demoFinder :: rest →
        alookup w.modules "demo_hook" = none →
        import_by_name w "demo_hook" =
          (.ok ⟨w.nextId, "demo_hook", none, demo_hook_attrs⟩,
           { w with nextId := w.nextId + 1,
                    modules := setEntry (setEntry w.modules "demo_hook"
                        ⟨w.nextId, "demo_hook", none, []⟩) "demo_hook"
                      ⟨w.nextId, "demo_hook", none, demo_hook_attrs⟩,
                    execLog := w.execLog ++ ["demo_hook"] }) ∧
        getattr ⟨w.nextId, "demo_hook", none, demo_hook_attrs⟩ "VALUE" =
          some (.prim (.pint 123)) ∧
        getattr ⟨w.nextId, "demo_hook", none, demo_hook_attrs⟩ "main" = none ∧
        (∀ args : List String,
            call_plugin ⟨w.nextId, "demo_hook", none, demo_hook_attrs⟩ args =
              .error (.attributeError "Plugin must define function main(argv) or main()"))) := by
  refine ⟨rfl, ?_, fun rest => rfl, ?_, ?_⟩
  · intro n h
    simp [DemoFinder_find_spec, h]
  · intro rest n h
    simp [find_spec_chain, demoFinder, DemoFinder_find_spec, h]
  · intro w rest hf hc
    refine ⟨?_, rfl, rfl, fun args => rfl⟩
    simp [import_by_name, hc, hf, find_spec_chain, demoFinder, DemoFinder_find_spec,
      demo_hook_content]

/-- Initial state for the C9 witness: the demo finder alone at the front of
an otherwise empty chain. -/
def c9_w0 : World := ⟨[], [demoFinder], [], 0, []⟩

/-- Witness for C9: importing `demo_hook` through the demo finder in a
concrete state. -/
theorem C9_witness :
    import_by_name c9_w0 "demo_hook" =
      (.ok ⟨0, "demo_hook", none, demo_hook_attrs⟩,
       { c9_w0 with nextId := 1,
                    modules := setEntry (setEntry c9_w0.modules "demo_hook"
                        ⟨0, "demo_hook", none, []⟩) "demo_hook"
                      ⟨0, "demo_hook", none, demo_hook_attrs⟩,
                    execLog := ["demo_hook"] }) ∧
    getattr ⟨0, "demo_hook", none, demo_hook_attrs⟩ "VALUE" = some (.prim (.pint 123)) ∧
    getattr ⟨0, "demo_hook", none, demo_hook_attrs⟩ "main" = none ∧
    call_plugin ⟨0, "demo_hook", none, demo_hook_attrs⟩ [] =
      .error (.attributeError "Plugin must define function main(argv) or main()") := by
  have h := C9_demo_finder.2.2.2.2 c9_w0 [] rfl rfl
  exact ⟨h.1, h.2.1, h.2.2.1, h.2.2.2 []⟩

end TaskRunner
